import Mathlib

/-!
Shallow embedding of `src/main.py` (a MicroPython capacitive-touch BLE HID
keyboard) and verification of the specification's claims about it.

Modelling conventions:
- Byte strings are `List Nat` with entries intended below 256; where the source
  packs integers into fixed-width fields, the embedding masks explicitly
  (MicroPython's `struct.pack` masks out-of-range values to the field width
  rather than raising, unlike CPython).
- `None` and a Python string/bytes value are modelled together as `List Nat`,
  with `[]` playing the role of both `None` and the empty string: the source
  only ever tests such values for truthiness (`if name:`), and both are falsy.
- The connection handle is `Option Nat`; the source's truthiness test
  `if not self._conn_handle` is false exactly for `some h` with `h ≠ 0`.
- `time.ticks_ms` values are plain naturals and `time.ticks_diff` is integer
  subtraction; this is faithful while timestamps stay within one tick era
  (the 2^30 ms wrap-around of the tick counter is not modelled).
- Radio side effects (`gatts_notify`, `time.sleep_ms`, `gap_advertise`) are
  reified as action traces returned by the embedded functions.
-/

namespace CapTouchKeyboard

/-- Configuration constant `TOUCH_THRESHOLD` (src/main.py line 10). -/
def TOUCH_THRESHOLD : Nat := 800

/-- Configuration constant `DEBOUNCE_MS` (src/main.py line 11). -/
def DEBOUNCE_MS : Nat := 300

/-- Configuration constant `KEY_HOLD_TIME_MS` (src/main.py line 13). -/
def KEY_HOLD_TIME_MS : Nat := 75

/-- Constant `_ADV_APPEARANCE_KEYBOARD = const(961)` (src/main.py line 27). -/
def ADV_APPEARANCE_KEYBOARD : Int := 961

/-- `KEY_SPACE = 0x2C` (src/main.py line 117). -/
def KEY_SPACE : Nat := 0x2C

/-- The fixed keyboard report descriptor `_HID_REPORT_DESC`
(src/main.py lines 30-35). -/
def HID_REPORT_DESC : List Nat :=
  [0x05, 0x01, 0x09, 0x06, 0xA1, 0x01, 0x05, 0x07, 0x19, 0xE0, 0x29, 0xE7,
   0x15, 0x00, 0x25, 0x01, 0x75, 0x01, 0x95, 0x08, 0x81, 0x02, 0x95, 0x01,
   0x75, 0x08, 0x81, 0x01, 0x95, 0x06, 0x75, 0x08, 0x15, 0x00, 0x25, 0x65,
   0x05, 0x07, 0x19, 0x00, 0x29, 0x65, 0x81, 0x00, 0xC0]

/-- UTF-8 bytes of the default device name "ESP Space" (src/main.py line 38). -/
def ESP_SPACE : List Nat := [69, 83, 80, 32, 83, 112, 97, 99, 101]

/-- `struct.pack("<h", x)`: two little-endian bytes of the value's low 16 bits
in two's complement.  MicroPython masks out-of-range values to the field width
instead of raising, so this is total on `Int`. -/
def pack_lh (x : Int) : List Nat :=
  let u := (x % 65536).toNat
  [u % 256, u / 256]

/-- The `_append` helper of `advertising_payload` (src/main.py lines 98-100):
`payload += struct.pack("BB", len(value) + 1, adv_type) + value`.
`struct.pack("BB", ...)` masks each argument to one byte. -/
def adv_append (payload : List Nat) (adv_type : Nat) (value : List Nat) : List Nat :=
  payload ++ [(value.length + 1) % 256, adv_type % 256] ++ value

/-- The flags byte packed by `advertising_payload`
(src/main.py line 102): `(0x02 if limited_disc else 0x06) + (0x00 if br_edr else 0x04)`. -/
def flags_byte (limited_disc br_edr : Bool) : Nat :=
  (if limited_disc then 0x02 else 0x06) + (if br_edr then 0x00 else 0x04)

/-- `advertising_payload(limited_disc, br_edr, name, appearance)`
(src/main.py lines 96-108).  `name = None` is modelled as `[]` (both falsy). -/
def advertising_payload (limited_disc br_edr : Bool) (name : List Nat)
    (appearance : Int) : List Nat :=
  let p1 := adv_append [] 0x01 [flags_byte limited_disc br_edr]
  let p2 := if name ≠ [] then adv_append p1 0x09 name else p1
  let p3 := if appearance ≠ 0 then adv_append p2 0x19 (pack_lh appearance) else p2
  adv_append p3 0x03 [0x12, 0x18]

/-- The payload layout as the spec words it ("each field is emitted as
[length][type][value...] where length counts type+value bytes", i.e. the length
byte is exactly `1 + number of value bytes`, with no masking).  Used only to
compare the source function against the claimed field-by-field encoding. -/
def advertising_payload_claimed (limited_disc br_edr : Bool) (name : List Nat)
    (appearance : Int) : List Nat :=
  [2, 0x01, flags_byte limited_disc br_edr]
    ++ (if name ≠ [] then [name.length + 1, 0x09] ++ name else [])
    ++ (if appearance ≠ 0 then [3, 0x19] ++ pack_lh appearance else [])
    ++ [3, 0x03, 0x12, 0x18]

/-- The five characteristics of the registered HID service
(src/main.py lines 44-52). -/
inductive HIDChar where
  | info
  | reportMap
  | inputReport
  | protoMode
  | controlPoint
deriving DecidableEq, Repr

/-- Observable side effects of `send_key`: a `gatts_notify` on a characteristic
for a connection handle, or a `time.sleep_ms`. -/
inductive KBAction where
  | notify (conn_handle : Nat) (char : HIDChar) (data : List Nat)
  | sleep_ms (ms : Nat)
deriving DecidableEq, Repr

/-- True exactly on `notify` actions. -/
def KBAction.isNotify : KBAction → Bool
  | KBAction.notify _ _ _ => true
  | KBAction.sleep_ms _ => false

/-- Number of `gatts_notify` calls in an action trace. -/
def notifyCount (evs : List KBAction) : Nat :=
  (evs.filter KBAction.isNotify).length

/-- Total sleep time before the next `notify` in a trace. -/
def sleepsUntilNextNotify : List KBAction → Nat
  | [] => 0
  | KBAction.sleep_ms m :: rest => m + sleepsUntilNextNotify rest
  | KBAction.notify _ _ _ :: _ => 0

/-- Total sleep time between the first `notify` of a trace and the following
`notify`: the time separating the key-down and key-up notifications. -/
def gapAfterFirstNotify : List KBAction → Nat
  | [] => 0
  | KBAction.notify _ _ _ :: rest => sleepsUntilNextNotify rest
  | KBAction.sleep_ms _ :: rest => gapAfterFirstNotify rest

/-- The mutable state of a `BLEKeyboard` instance: the stored values of the
five characteristics, the connection handle and the advertising payload
(src/main.py lines 54-67). -/
structure KBState where
  h_info : List Nat
  h_rep_map : List Nat
  h_rep : List Nat
  h_proto : List Nat
  h_ctrl : List Nat
  conn_handle : Option Nat
  payload : List Nat
deriving DecidableEq, Repr

/-- `BLEKeyboard.__init__` (src/main.py lines 38-69): the five `gatts_write`
initial values, `self._conn_handle = None`, and the payload built once with
`advertising_payload(name=name, appearance=_ADV_APPEARANCE_KEYBOARD)`. -/
def BLEKeyboard.init (name : List Nat) : KBState :=
  { h_info := [0x11, 0x01, 0x00, 0x02]
    h_rep_map := HID_REPORT_DESC
    h_rep := [0, 0, 0, 0, 0, 0, 0, 0]
    h_proto := [0x01]
    h_ctrl := [0x00]
    conn_handle := none
    payload := advertising_payload false false name ADV_APPEARANCE_KEYBOARD }

/-- Radio events delivered to `BLEKeyboard._irq` (src/main.py lines 17-18):
`_IRQ_CENTRAL_CONNECT` carries the new connection handle (first component of
`data`), `_IRQ_CENTRAL_DISCONNECT` carries nothing this layer uses. -/
inductive IRQEvent where
  | centralConnect (conn_handle : Nat)
  | centralDisconnect
deriving DecidableEq, Repr

/-- `BLEKeyboard._irq` (src/main.py lines 71-78).  Returns the new state
together with the payloads submitted to `gap_advertise` during the event
(`_advertise` always submits `self._payload`, src/main.py lines 80-81; the
fixed 500000 µs interval is not modelled). -/
def BLEKeyboard.irq (st : KBState) : IRQEvent → KBState × List (List Nat)
  | IRQEvent.centralConnect h => ({ st with conn_handle := some h }, [])
  | IRQEvent.centralDisconnect => ({ st with conn_handle := none }, [st.payload])

/-- Folds `BLEKeyboard.irq` over a list of radio events, accumulating every
payload submitted to `gap_advertise` along the way. -/
def BLEKeyboard.runIrq (st : KBState) : List IRQEvent → KBState × List (List Nat)
  | [] => (st, [])
  | e :: rest =>
    let s1 := BLEKeyboard.irq st e
    let s2 := BLEKeyboard.runIrq s1.1 rest
    (s2.1, s1.2 ++ s2.2)

/-- `BLEKeyboard.send_key` (src/main.py lines 83-94).  `if not
self._conn_handle: return` drops the call when the handle is `None` or `0`
(both falsy in Python).  Otherwise: notify the key-down frame
`struct.pack("8B", 0, 0, key_code, 0, 0, 0, 0, 0)` (each argument masked to a
byte), sleep `KEY_HOLD_TIME_MS`, notify the all-zero key-up frame. -/
def BLEKeyboard.send_key (st : KBState) (key_code : Nat) : List KBAction :=
  match st.conn_handle with
  | none => []
  | some h =>
    if h = 0 then []
    else
      [KBAction.notify h HIDChar.inputReport [0, 0, key_code % 256, 0, 0, 0, 0, 0],
       KBAction.sleep_ms KEY_HOLD_TIME_MS,
       KBAction.notify h HIDChar.inputReport [0, 0, 0, 0, 0, 0, 0, 0]]

/-- `time.ticks_diff(a, b)` modelled as plain integer subtraction (valid
within one tick era). -/
def ticks_diff (a b : Nat) : Int := (a : Int) - (b : Int)

/-- The touch sampling loop of `main` (src/main.py lines 122-133) on a finite
fault-free trace.  Each element of `inputs` is one iteration's sensor reading
`touch.read()` paired with that iteration's `time.ticks_ms()` value.  Returns
the accepted events — the `(val, now)` pairs at which `kb.send_key(KEY_SPACE)`
is called — threading `last_press_time` exactly as the source does. -/
def mainLoop (last_press_time : Nat) : List (Nat × Nat) → List (Nat × Nat)
  | [] => []
  | (val, now) :: rest =>
    if val < TOUCH_THRESHOLD then
      if (DEBOUNCE_MS : Int) < ticks_diff now last_press_time then
        (val, now) :: mainLoop now rest
      else
        mainLoop last_press_time rest
    else
      mainLoop last_press_time rest

/-- The sampling loop as `main` runs it, with `last_press_time = 0`
(src/main.py line 118). -/
def mainRun (inputs : List (Nat × Nat)) : List (Nat × Nat) :=
  mainLoop 0 inputs

/-- Pure debounce filter: accepts an input exactly when more than
`DEBOUNCE_MS` has elapsed since the last accepted input, ignoring sensor
values.  Reference behaviour for the sampling loop on a sustained touch
(every reading below threshold). -/
def debounceOnlyFilter (last_press_time : Nat) : List (Nat × Nat) → List (Nat × Nat)
  | [] => []
  | (val, now) :: rest =>
    if (DEBOUNCE_MS : Int) < ticks_diff now last_press_time then
      (val, now) :: debounceOnlyFilter now rest
    else
      debounceOnlyFilter last_press_time rest

/-- A sustained-touch trace: 17 consecutive polls at the loop's 20 ms spacing,
all reading 700 (below threshold), starting 301 ms after the tick epoch and
lasting 320 ms — longer than the debounce window. -/
def c3run : List (Nat × Nat) :=
  (List.range 17).map fun k => (700, 301 + 20 * k)

/-- State of the keyboard after `__init__` with the default name followed by a
connect event that delivers connection handle 0. -/
def c1_zero_handle_state : KBState :=
  (BLEKeyboard.irq (BLEKeyboard.init ESP_SPACE) (IRQEvent.centralConnect 0)).1

/-- State of the keyboard after `__init__` with the default name followed by a
connect event that delivers connection handle 64. -/
def c1_live_state : KBState :=
  (BLEKeyboard.irq (BLEKeyboard.init ESP_SPACE) (IRQEvent.centralConnect 64)).1

/-- A 255-byte device name (255 copies of the byte 65). -/
def long_name : List Nat := List.replicate 255 65

/- ===================== Theorems ===================== -/

/-- Every event accepted by the sampling loop comes from an input iteration
whose sensor value is below the threshold. -/
theorem mainLoop_mem (inputs : List (Nat × Nat)) :
    ∀ (last : Nat) (p : Nat × Nat), p ∈ mainLoop last inputs →
      p.1 < TOUCH_THRESHOLD ∧ p ∈ inputs := by
  induction inputs with
  | nil => intro last p hp; simp [mainLoop] at hp
  | cons q rest ih =>
    intro last p hp
    obtain ⟨val, now⟩ := q
    simp only [mainLoop] at hp
    by_cases h1 : val < TOUCH_THRESHOLD
    · rw [if_pos h1] at hp
      by_cases h2 : (DEBOUNCE_MS : Int) < ticks_diff now last
      · rw [if_pos h2] at hp
        rcases List.mem_cons.mp hp with h | h
        · subst h
          exact ⟨h1, List.mem_cons_self _ _⟩
        · obtain ⟨ha, hb⟩ := ih now p h
          exact ⟨ha, List.mem_cons_of_mem _ hb⟩
      · rw [if_neg h2] at hp
        obtain ⟨ha, hb⟩ := ih last p hp
        exact ⟨ha, List.mem_cons_of_mem _ hb⟩
    · rw [if_neg h1] at hp
      obtain ⟨ha, hb⟩ := ih last p hp
      exact ⟨ha, List.mem_cons_of_mem _ hb⟩

/-- Consecutive events accepted by the sampling loop are separated by more
than the debounce window, and the first one is separated from the incoming
`last_press_time` by more than the debounce window. -/
theorem mainLoop_chain (inputs : List (Nat × Nat)) :
    ∀ last : Nat,
      (∀ p ∈ (mainLoop last inputs).head?,
        (DEBOUNCE_MS : Int) < ticks_diff p.2 last) ∧
      List.Chain' (fun a b => (DEBOUNCE_MS : Int) < ticks_diff b.2 a.2)
        (mainLoop last inputs) := by
  induction inputs with
  | nil => intro last; simp [mainLoop]
  | cons q rest ih =>
    intro last
    obtain ⟨val, now⟩ := q
    simp only [mainLoop]
    by_cases h1 : val < TOUCH_THRESHOLD
    · rw [if_pos h1]
      by_cases h2 : (DEBOUNCE_MS : Int) < ticks_diff now last
      · rw [if_pos h2]
        refine ⟨?_, List.chain'_cons'.mpr ⟨(ih now).1, (ih now).2⟩⟩
        intro p hp
        simp only [List.head?_cons, Option.mem_def, Option.some.injEq] at hp
        subst hp
        exact h2
      · rw [if_neg h2]
        exact ih last
    · rw [if_neg h1]
      exact ih last

/-- C2: for every sequence of polled sensor values and timestamps, a key event
(a `send_key` call site) occurs only at an iteration whose sensor value is
strictly below the threshold, and no accepted event follows the previously
accepted one within `DEBOUNCE_MS` milliseconds (their time difference strictly
exceeds the debounce window). -/
theorem sampling_loop_threshold_necessary_and_debounced (inputs : List (Nat × Nat)) :
    (∀ p ∈ mainRun inputs, p.1 < TOUCH_THRESHOLD ∧ p ∈ inputs) ∧
    List.Chain' (fun a b => (DEBOUNCE_MS : Int) < ticks_diff b.2 a.2)
      (mainRun inputs) :=
  ⟨fun p hp => mainLoop_mem inputs 0 p hp, (mainLoop_chain inputs 0).2⟩

/-- Witness for C2 at the concrete trace [(700, 400), (900, 420), (700, 900)]:
its first accepted event (700, 400) reads below threshold and is one of the
polled iterations. -/
theorem sampling_loop_threshold_necessary_and_debounced_witness :
    ((700, 400) : Nat × Nat).1 < TOUCH_THRESHOLD ∧
    ((700, 400) : Nat × Nat) ∈ ([(700, 400), (900, 420), (700, 900)] : List (Nat × Nat)) :=
  (sampling_loop_threshold_necessary_and_debounced
    [(700, 400), (900, 420), (700, 900)]).1 (700, 400) (by decide)

/-- C3 counterexample: on the sustained touch `c3run` — 17 consecutive polls
at 20 ms spacing, every reading below the threshold, lasting longer than the
debounce window — the sampling loop accepts two key events (at 301 ms and at
621 ms), not exactly one: the loop re-fires once the debounce window elapses
while the value stays below threshold. -/
theorem sustained_touch_single_event_counterexample :
    (c3run.all fun p => decide (p.1 < TOUCH_THRESHOLD)) = true ∧
    mainRun c3run = [(700, 301), (700, 621)] ∧
    (mainRun c3run).length ≠ 1 := by decide

/-- C3 amended: on a sustained touch (every polled value below the threshold)
the sampling loop accepts an event exactly at the polls where more than the
debounce window has elapsed since the previously accepted event — one at entry
when the debounce gate is open, and further re-fires each time the window
elapses again; it behaves as the pure debounce filter. -/
theorem sustained_touch_refires_after_debounce (last : Nat) (inputs : List (Nat × Nat))
    (h : ∀ p ∈ inputs, p.1 < TOUCH_THRESHOLD) :
    mainLoop last inputs = debounceOnlyFilter last inputs := by
  induction inputs generalizing last with
  | nil => rfl
  | cons q rest ih =>
    obtain ⟨val, now⟩ := q
    have hv : val < TOUCH_THRESHOLD := h (val, now) (List.mem_cons_self _ _)
    have hrest : ∀ p ∈ rest, p.1 < TOUCH_THRESHOLD :=
      fun p hp => h p (List.mem_cons_of_mem _ hp)
    simp only [mainLoop, debounceOnlyFilter, if_pos hv]
    by_cases h2 : (DEBOUNCE_MS : Int) < ticks_diff now last
    · rw [if_pos h2, if_pos h2, ih now hrest]
    · rw [if_neg h2, if_neg h2, ih last hrest]

/-- Witness for amended C3 at the concrete sustained touch `c3run`. -/
theorem sustained_touch_refires_after_debounce_witness :
    mainLoop 0 c3run = debounceOnlyFilter 0 c3run :=
  sustained_touch_refires_after_debounce 0 c3run (by decide)

/-- C6: with threshold 800 and debounce 300 ms, the sensor sequence
[900, 900, 750, 900] at 20 ms spacing starting at tick `t0` produces exactly
one accepted key event, on the third reading, provided the scenario runs
after the loop's initial debounce guard has lapsed (the third reading happens
more than 300 ms after the tick epoch, i.e. `260 < t0`). -/
theorem scenario_900_900_750_900 (t0 : Nat) (h : 260 < t0) :
    mainRun [(900, t0), (900, t0 + 20), (750, t0 + 40), (900, t0 + 60)] =
      [(750, t0 + 40)] := by
  have h900 : ¬ (900 < TOUCH_THRESHOLD) := by decide
  have h750 : 750 < TOUCH_THRESHOLD := by decide
  have hgate : (DEBOUNCE_MS : Int) < ticks_diff (t0 + 40) 0 := by
    simp only [ticks_diff, DEBOUNCE_MS]
    push_cast
    omega
  simp only [mainRun, mainLoop, if_neg h900, if_pos h750, if_pos hgate]

/-- Witness for C6 with the scenario starting at tick 1000. -/
theorem scenario_900_900_750_900_witness :
    mainRun [(900, 1000), (900, 1020), (750, 1040), (900, 1060)] = [(750, 1040)] :=
  scenario_900_900_750_900 1000 (by decide)

/-- C10: `last_press_time` starts at 0, the tick epoch, so the debounce guard
`ticks_diff(now, 0) > 300` suppresses every poll — touches included — whose
timestamp is at most `DEBOUNCE_MS` after the tick epoch: such a trace produces
no key event at all, even though no prior event was ever accepted. -/
theorem early_polls_suppressed (inputs : List (Nat × Nat))
    (h : ∀ p ∈ inputs, p.2 ≤ DEBOUNCE_MS) :
    mainRun inputs = [] := by
  have main : ∀ l : List (Nat × Nat), (∀ p ∈ l, p.2 ≤ DEBOUNCE_MS) →
      mainLoop 0 l = [] := by
    intro l
    induction l with
    | nil => intro _; rfl
    | cons q rest ih =>
      intro hl
      obtain ⟨val, now⟩ := q
      have hnow : now ≤ DEBOUNCE_MS := hl (val, now) (List.mem_cons_self _ _)
      have hgate : ¬ ((DEBOUNCE_MS : Int) < ticks_diff now 0) := by
        simp only [ticks_diff]
        push_cast
        omega
      have hrest : ∀ p ∈ rest, p.2 ≤ DEBOUNCE_MS :=
        fun p hp => hl p (List.mem_cons_of_mem _ hp)
      simp only [mainLoop]
      by_cases h1 : val < TOUCH_THRESHOLD
      · rw [if_pos h1, if_neg hgate]
        exact ih hrest
      · rw [if_neg h1]
        exact ih hrest
  exact main inputs h

/-- Witness for C10: a genuine touch (value 700, below the threshold) polled
100 ms after the tick epoch produces no key event. -/
theorem early_polls_suppressed_witness : mainRun [(700, 100)] = [] :=
  early_polls_suppressed [(700, 100)] (by decide)

/-- C1 counterexample: after a connect event delivering handle 0 the
connection handle is stored (`some 0`) and never cleared, yet `send_key`
performs zero notifications, not two: `if not self._conn_handle` also drops
the falsy handle 0. -/
theorem send_key_stored_handle_counterexample :
    c1_zero_handle_state.conn_handle = some 0 ∧
    notifyCount (BLEKeyboard.send_key c1_zero_handle_state KEY_SPACE) = 0 ∧
    notifyCount (BLEKeyboard.send_key c1_zero_handle_state KEY_SPACE) ≠ 2 := by
  decide

/-- C1 amended: when the stored connection handle is nonzero (Python-truthy),
`send_key code` performs exactly two notifications on the Input Report
characteristic — first the 8-byte frame with `code % 256` at index 2 and the
other seven bytes (modifier included) zero, then the all-zero 8-byte frame —
separated by a sleep of exactly the hold duration `KEY_HOLD_TIME_MS = 75` ms. -/
theorem send_key_two_notifications (st : KBState) (h code : Nat)
    (hconn : st.conn_handle = some h) (hnz : h ≠ 0) :
    BLEKeyboard.send_key st code =
      [KBAction.notify h HIDChar.inputReport [0, 0, code % 256, 0, 0, 0, 0, 0],
       KBAction.sleep_ms KEY_HOLD_TIME_MS,
       KBAction.notify h HIDChar.inputReport [0, 0, 0, 0, 0, 0, 0, 0]] ∧
    notifyCount (BLEKeyboard.send_key st code) = 2 ∧
    gapAfterFirstNotify (BLEKeyboard.send_key st code) = KEY_HOLD_TIME_MS ∧
    KEY_HOLD_TIME_MS = 75 := by
  have hsend : BLEKeyboard.send_key st code =
      [KBAction.notify h HIDChar.inputReport [0, 0, code % 256, 0, 0, 0, 0, 0],
       KBAction.sleep_ms KEY_HOLD_TIME_MS,
       KBAction.notify h HIDChar.inputReport [0, 0, 0, 0, 0, 0, 0, 0]] := by
    unfold BLEKeyboard.send_key
    rw [hconn]
    simp [hnz]
  refine ⟨hsend, ?_, ?_, rfl⟩
  · rw [hsend]; rfl
  · rw [hsend]; rfl

/-- Witness for amended C1: the keyboard connected with handle 64, sending the
Spacebar code 44. -/
theorem send_key_two_notifications_witness :
    BLEKeyboard.send_key c1_live_state 44 =
      [KBAction.notify 64 HIDChar.inputReport [0, 0, 44 % 256, 0, 0, 0, 0, 0],
       KBAction.sleep_ms KEY_HOLD_TIME_MS,
       KBAction.notify 64 HIDChar.inputReport [0, 0, 0, 0, 0, 0, 0, 0]] ∧
    notifyCount (BLEKeyboard.send_key c1_live_state 44) = 2 ∧
    gapAfterFirstNotify (BLEKeyboard.send_key c1_live_state 44) = KEY_HOLD_TIME_MS ∧
    KEY_HOLD_TIME_MS = 75 :=
  send_key_two_notifications c1_live_state 64 44 (by decide) (by decide)

set_option maxRecDepth 4000 in
/-- C4 counterexample: with a 255-byte name the source emits the name field's
length byte as `(255 + 1) % 256 = 0` (MicroPython `struct.pack("BB", ...)`
masks to one byte), so the payload differs from the claimed field-by-field
encoding whose length byte is `1 + number of value bytes`. -/
theorem advertising_payload_length_byte_counterexample :
    advertising_payload false false long_name 961 ≠
      advertising_payload_claimed false false long_name 961 := by
  decide

/-- C4 amended: for every flag pair, every appearance code and every name of
at most 254 bytes, the payload is exactly the claimed encoding — flags field
first, a complete-local-name field exactly when the name is non-empty, a
16-bit little-endian appearance field exactly when the appearance code is
nonzero, and finally the service-UUID field with value bytes 0x12 0x18, each
field as [length][type][value...] with length = 1 + number of value bytes —
and repeated calls return the identical byte sequence. -/
theorem advertising_payload_structure (limited_disc br_edr : Bool)
    (name : List Nat) (appearance : Int) (hname : name.length ≤ 254) :
    advertising_payload limited_disc br_edr name appearance =
      advertising_payload_claimed limited_disc br_edr name appearance ∧
    advertising_payload limited_disc br_edr name appearance =
      advertising_payload limited_disc br_edr name appearance := by
  refine ⟨?_, rfl⟩
  have hlen : (name.length + 1) % 256 = name.length + 1 :=
    Nat.mod_eq_of_lt (by omega)
  by_cases hn : name ≠ [] <;> by_cases ha : appearance ≠ 0 <;>
    simp [advertising_payload, advertising_payload_claimed, adv_append,
      pack_lh, hlen, hn, ha]

/-- Witness for amended C4 at name "ESP Space" and appearance 961. -/
theorem advertising_payload_structure_witness :
    advertising_payload false false ESP_SPACE 961 =
      advertising_payload_claimed false false ESP_SPACE 961 ∧
    advertising_payload false false ESP_SPACE 961 =
      advertising_payload false false ESP_SPACE 961 :=
  advertising_payload_structure false false ESP_SPACE 961 (by decide)

/-- C5: after `__init__` (and before any key event — no other operation writes
the characteristics), the five characteristics hold exactly: HID Information
= 0x11 0x01 0x00 0x02, Report Map = the fixed 45-byte report descriptor,
Input Report = 8 zero bytes, Protocol Mode = 0x01, Control Point = one zero
byte. -/
theorem initial_characteristic_values (name : List Nat) :
    (BLEKeyboard.init name).h_info = [0x11, 0x01, 0x00, 0x02] ∧
    (BLEKeyboard.init name).h_rep_map = HID_REPORT_DESC ∧
    HID_REPORT_DESC.length = 45 ∧
    (BLEKeyboard.init name).h_rep = List.replicate 8 0 ∧
    (BLEKeyboard.init name).h_proto = [0x01] ∧
    (BLEKeyboard.init name).h_ctrl = [0x00] :=
  ⟨rfl, rfl, rfl, rfl, rfl, rfl⟩

/-- Running any sequence of radio events never changes the stored advertising
payload, and every payload submitted to `gap_advertise` along the way equals
the stored one. -/
theorem runIrq_payload (evs : List IRQEvent) :
    ∀ st : KBState, (BLEKeyboard.runIrq st evs).1.payload = st.payload ∧
      ∀ p ∈ (BLEKeyboard.runIrq st evs).2, p = st.payload := by
  induction evs with
  | nil =>
    intro st
    exact ⟨rfl, by intro p hp; simp [BLEKeyboard.runIrq] at hp⟩
  | cons e rest ih =>
    intro st
    cases e with
    | centralConnect h =>
      constructor
      · simp only [BLEKeyboard.runIrq, BLEKeyboard.irq]
        exact (ih { st with conn_handle := some h }).1
      · intro p hp
        simp only [BLEKeyboard.runIrq, BLEKeyboard.irq, List.nil_append] at hp
        exact (ih { st with conn_handle := some h }).2 p hp
    | centralDisconnect =>
      constructor
      · simp only [BLEKeyboard.runIrq, BLEKeyboard.irq]
        exact (ih { st with conn_handle := none }).1
      · intro p hp
        simp only [BLEKeyboard.runIrq, BLEKeyboard.irq, List.singleton_append] at hp
        rcases List.mem_cons.mp hp with h | h
        · exact h
        · exact (ih { st with conn_handle := none }).2 p h

/-- C7: a disconnect event clears the stored connection handle to `none` and
immediately submits one advertisement whose bytes are the stored payload; and
starting from `__init__`, no sequence of radio events ever mutates the stored
payload, so every advertisement submitted along the way equals the payload
built once at startup. -/
theorem disconnect_clears_handle_and_readvertises (name : List Nat)
    (st : KBState) (evs : List IRQEvent) :
    (BLEKeyboard.irq st IRQEvent.centralDisconnect).1.conn_handle = none ∧
    (BLEKeyboard.irq st IRQEvent.centralDisconnect).2 = [st.payload] ∧
    (BLEKeyboard.runIrq (BLEKeyboard.init name) evs).1.payload =
      (BLEKeyboard.init name).payload ∧
    (∀ p ∈ (BLEKeyboard.runIrq (BLEKeyboard.init name) evs).2,
      p = (BLEKeyboard.init name).payload) :=
  ⟨rfl, rfl, (runIrq_payload evs (BLEKeyboard.init name)).1,
    (runIrq_payload evs (BLEKeyboard.init name)).2⟩

/-- Witness for C7: after a connect with handle 5 followed by a disconnect,
the handle is cleared and the one submitted advertisement is the startup
payload. -/
theorem disconnect_clears_handle_and_readvertises_witness :
    (BLEKeyboard.irq (BLEKeyboard.init ESP_SPACE) IRQEvent.centralDisconnect).1.conn_handle
        = none ∧
    (BLEKeyboard.runIrq (BLEKeyboard.init ESP_SPACE)
        [IRQEvent.centralConnect 5, IRQEvent.centralDisconnect]).2.head!
      = (BLEKeyboard.init ESP_SPACE).payload := by
  have h := disconnect_clears_handle_and_readvertises ESP_SPACE
    (BLEKeyboard.init ESP_SPACE) [IRQEvent.centralConnect 5, IRQEvent.centralDisconnect]
  exact ⟨h.1, h.2.2.2 _ (by decide)⟩

/-- C8: the payload builder is a total function — MicroPython `struct.pack`
masks out-of-range values to the field width instead of raising, so every
name and every appearance code yields a byte sequence, always terminated by
the fixed service-UUID field with value bytes 0x12 0x18 — and it is pure and
deterministic: repeated calls with the same inputs give the identical
sequence. -/
theorem advertising_payload_total_deterministic (limited_disc br_edr : Bool)
    (name : List Nat) (appearance : Int) :
    (∃ front, advertising_payload limited_disc br_edr name appearance =
        adv_append front 0x03 [0x12, 0x18]) ∧
    advertising_payload limited_disc br_edr name appearance =
      advertising_payload limited_disc br_edr name appearance :=
  ⟨⟨_, rfl⟩, rfl⟩

/-- C9: `send_key` drops the event whenever the stored handle is falsy: with
the handle cleared (`none`, disconnected) it performs no action, and after a
connect event delivering handle 0 — a host connected per the data model, the
handle stored as `some 0` — every `send_key` call is silently dropped as
well. -/
theorem falsy_handle_drops_send_key (st : KBState) (code : Nat) :
    BLEKeyboard.send_key { st with conn_handle := none } code = [] ∧
    (BLEKeyboard.irq st (IRQEvent.centralConnect 0)).1.conn_handle = some 0 ∧
    BLEKeyboard.send_key (BLEKeyboard.irq st (IRQEvent.centralConnect 0)).1 code = [] :=
  ⟨rfl, rfl, rfl⟩

end CapTouchKeyboard
